import Mathlib

/-
Shallow embedding of `src/crates/cheatnet/src/cheatcodes/deploy.rs` from the
starknet-foundry repository: the `deploy` cheatcode of `CheatnetState` and its
helper `create_execute_calldata`.

Field elements (`StarkFelt` / `Felt252`) are modelled as `Nat`; all values
occurring in the embedded code are far below the Stark prime, so no reduction
is needed.  External collaborators (the blockifier ledger engine, the
panic-data decoder, the nonce reader) are modelled as explicit function-valued
fields of the harness state, and engine invocations are recorded in an
`executed` log so that "the engine is never contacted" and "the submitted
transaction carries these flags" become provable statements.
-/

/-- Field element: `StarkFelt` / `Felt252`, modelled as `Nat`. -/
abbrev Felt := Nat

/-- `starknet_api::core::ClassHash` (newtype over a felt). -/
structure ClassHash where
  val : Felt
deriving DecidableEq, Repr

/-- `starknet_api::core::ContractAddress` (newtype over a `PatriciaKey`). -/
structure ContractAddress where
  val : Felt
deriving DecidableEq, Repr

/-- `starknet_api::core::EntryPointSelector` (newtype over a felt). -/
structure EntryPointSelector where
  val : Felt
deriving DecidableEq, Repr

/-- `starknet_api::transaction::ContractAddressSalt` (newtype over a felt). -/
structure ContractAddressSalt where
  val : Felt
deriving DecidableEq, Repr

/-- `starknet_api::transaction::Calldata`: an ordered sequence of felts. -/
structure Calldata where
  elts : List Felt
deriving DecidableEq, Repr

/-- `PatriciaKey`'s upper bound in `starknet_api` (2^251); a felt converts to a
`ContractAddress` exactly when it is below this bound. -/
def PATRICIA_KEY_UPPER_BOUND : Nat := 2 ^ 251

/-- `ContractAddress::try_from(StarkFelt)`: succeeds iff the felt is a valid
patricia key. -/
def ContractAddress.try_from (f : Felt) : Option ContractAddress :=
  if f < PATRICIA_KEY_UPPER_BOUND then some ⟨f⟩ else none

/-- `create_execute_calldata` (deploy.rs lines 98-117): builds
`[account_address, selector, len+3, class_hash, salt, len] ++ calldata`.
The `u128::try_from(calldata.len()).unwrap()` and the `+ 3` cannot overflow for
any list whose length fits in `usize` (see `u128_try_from` below for the
checked model); on `Nat` they are exact. -/
def create_execute_calldata (calldata : List Felt) (class_hash : ClassHash)
    (account_address : ContractAddress) (entry_point_selector : EntryPointSelector)
    (salt : ContractAddressSalt) : Calldata :=
  let calldata_len : Nat := calldata.length
  ⟨[account_address.val,
    entry_point_selector.val,
    calldata_len + 3,
    class_hash.val,
    salt.val,
    calldata_len] ++ calldata⟩

/-- `u128::try_from` on a nonnegative length: `some` iff the value fits in 128
bits.  In the source the input is a `usize`, hence at most `2^64 - 1`. -/
def u128_try_from (n : Nat) : Option Nat :=
  if n < 2 ^ 128 then some n else none

/-- Checked `u128` addition: `some` unless the sum overflows 128 bits (Rust
debug-mode `+` panics on overflow). -/
def u128_checked_add (a b : Nat) : Option Nat :=
  if a + b < 2 ^ 128 then some (a + b) else none

/-- `create_execute_calldata` with its two fallible arithmetic steps made
explicit: the `usize → u128` length conversion and the `len + 3` addition.
`none` models a panic. -/
def create_execute_calldata_checked (calldata : List Felt) (class_hash : ClassHash)
    (account_address : ContractAddress) (entry_point_selector : EntryPointSelector)
    (salt : ContractAddressSalt) : Option Calldata :=
  match u128_try_from calldata.length with
  | none => none
  | some calldata_len =>
    match u128_checked_add calldata_len 3 with
    | none => none
    | some len3 =>
      some ⟨[account_address.val,
             entry_point_selector.val,
             len3,
             class_hash.val,
             salt.val,
             calldata_len] ++ calldata⟩

/-- Number of bits of `usize` on the 64-bit targets the harness builds for. -/
def USIZE_BITS : Nat := 64

/-- Blockifier's `ContractClass` as consumed by `deploy`: only
`constructor_selector()` is inspected. -/
structure ContractClass where
  constructor_selector : Option EntryPointSelector
deriving DecidableEq, Repr

/-- `CallExecution`: the return data of an executed call. -/
structure CallExecution where
  retdata : List Felt
deriving DecidableEq, Repr

/-- Blockifier's `CallInfo` as consumed by `deploy` (only the `execution`
field is read). -/
structure CallInfo where
  execution : CallExecution
deriving DecidableEq, Repr

/-- Blockifier's `TransactionExecutionInfo` as consumed by the outcome
classifier: a possible successful call trace and a possible revert reason. -/
structure TransactionExecutionInfo where
  execute_call_info : Option CallInfo
  revert_error : Option String
deriving DecidableEq, Repr

/-- The invoke transaction as submitted to the engine at deploy.rs line 72:
sender, nonce and calldata from `build_invoke_transaction` /
`InvokeTransactionV1 { nonce, ..tx }`, together with the two boolean
arguments of `account_tx.execute(blockifier_state, &block_context, true, true)`
(`charge_fee` and `validate`). -/
structure SubmittedTx where
  sender_address : ContractAddress
  nonce : Felt
  calldata : List Felt
  charge_fee : Bool
  validate : Bool
deriving DecidableEq, Repr

/-- Result of `ExecutableTransaction::execute`: either a
`TransactionExecutionInfo` or an engine-internal error (which `deploy`
turns into a process panic). -/
inductive ExecuteResult where
  | ok (info : TransactionExecutionInfo)
  | error (msg : String)
deriving DecidableEq, Repr

/-- The ledger engine together with the external panic-data decoder, modelled
as explicit functions, plus an `executed` log recording every transaction
submitted to the engine (instrumentation making "the engine was/was not
contacted" observable).
`get_compiled_contract_class` and `get_nonce_at` return `none` on their
respective lookup failures. -/
structure BlockifierState where
  get_compiled_contract_class : ClassHash → Option ContractClass
  get_nonce_at : ContractAddress → Option Felt
  execute_result : SubmittedTx → ExecuteResult
  try_extract_panic_data : String → Option (List Felt)
  executed : List SubmittedTx

/-- Modelled from the spec: the harness-wide state (§3 HarnessState) — the
current salt counter together with the exclusively held ledger state.  The
fields `deploy_salt_base`, `get_salt` and `increment_deploy_salt_base` of
`CheatnetState` live outside `src/`; the spec (§4.2) describes them as a
single unbounded counter with `get_salt` returning the current value and the
advance being a simple increment. -/
structure CheatnetState where
  deploy_salt_base : Nat
  blockifier_state : BlockifierState

/-- Modelled from the spec: `get_salt` returns the current salt (§4.2). -/
def CheatnetState.get_salt (s : CheatnetState) : ContractAddressSalt :=
  ⟨s.deploy_salt_base⟩

/-- Modelled from the spec: advancing the salt counter is a simple unbounded
increment (§4.2). -/
def CheatnetState.increment_deploy_salt_base (s : CheatnetState) : CheatnetState :=
  { s with deploy_salt_base := s.deploy_salt_base + 1 }

/-- Modelled from the spec: the fixed test-harness account resolved as
deployer (`TEST_ACCOUNT_CONTRACT_ADDRESS` lives in `crates/cheatnet/src/
constants.rs`, outside `src/`); an opaque fixed felt below the patricia-key
bound. -/
def TEST_ACCOUNT_CONTRACT_ADDRESS : Felt := 0x1aabbccdd

/-- Modelled from the spec: `selector_from_name("deploy_contract")` — the
selector is a fixed felt derived (externally, in blockifier) from the entry
point name; its concrete value is irrelevant to every claim. -/
def DEPLOY_CONTRACT_SELECTOR : Felt := 0xdeadbeef01

/-- Modelled from the spec: `felt_from_short_string` from
`crates/cheatnet/src/conversions.rs` (outside `src/`): the Cairo short-string
encoding packs the ASCII bytes of the string into one felt, big-endian. -/
def felt_from_short_string (s : String) : Felt :=
  s.toList.foldl (fun acc c => acc * 256 + c.toNat) 0

/-- `EnhancedHintError` as it reaches `CheatcodeError`: modelled by its
message (`anyhow::Context` string for the nonce path, the state-reader error
for the class path). -/
structure EnhancedHintError where
  msg : String
deriving DecidableEq, Repr

/-- Modelled from the spec: `CheatcodeError` (declared outside `src/`) — the
two-tier error taxonomy of §7/§9: a recoverable structured failure carrying
panic data, and an unrecoverable-error escape that callers are not expected
to handle. -/
inductive CheatcodeError where
  | Recoverable (panic_data : List Felt)
  | Unrecoverable (err : EnhancedHintError)
deriving DecidableEq, Repr

/-- The observable outcome of one `deploy` call: `ok` / `err` are the two
sides of the Rust `Result`; `panic` models a process abort
(`panic!` / `.unwrap_or_else(panic)` / `.expect`). -/
inductive DeployOutcome where
  | ok (addr : ContractAddress)
  | err (e : CheatcodeError)
  | panic (msg : String)
deriving DecidableEq, Repr

/-- `true` exactly on the process-abort outcome. -/
def DeployOutcome.isPanic : DeployOutcome → Bool
  | .panic _ => true
  | _ => false

/-- Message of the unrecoverable error on the class-lookup path
(`get_compiled_contract_class(...).map_err::<EnhancedHintError, _>(...)?`);
the exact text comes from blockifier's state error and is opaque here. -/
def CLASS_LOOKUP_ERROR : String := "class hash not declared"

/-- `anyhow` context string on the nonce path (deploy.rs line 62). -/
def NONCE_LOOKUP_ERROR : String := "Failed to get nonce"

/-- The invoke transaction `deploy` builds and submits (deploy.rs lines
52-58 and 64-69): calldata from `create_execute_calldata` with the salt
captured from `s₀` *before* the increment, sender = the test account,
the given nonce, and the literal `(true, true)` flag pair of line 72. -/
def deploy_invoke_tx (s₀ : CheatnetState) (class_hash : ClassHash)
    (calldata : List Felt) (nonce : Felt) : SubmittedTx :=
  { sender_address := ⟨TEST_ACCOUNT_CONTRACT_ADDRESS⟩
    nonce := nonce
    calldata := (create_execute_calldata calldata class_hash
      ⟨TEST_ACCOUNT_CONTRACT_ADDRESS⟩ ⟨DEPLOY_CONTRACT_SELECTOR⟩ s₀.get_salt).elts
    charge_fee := true
    validate := true }

/-- The harness state after `deploy` has incremented the salt counter and
submitted its transaction to the engine (the state effect of deploy.rs
lines 38-39 and 72). -/
def post_submit_state (s₀ : CheatnetState) (class_hash : ClassHash)
    (calldata : List Felt) (nonce : Felt) : CheatnetState :=
  let s := s₀.increment_deploy_salt_base
  { s with blockifier_state := { s.blockifier_state with
      executed := s.blockifier_state.executed ++
        [deploy_invoke_tx s₀ class_hash calldata nonce] } }

/-- The Outcome Classifier (deploy.rs lines 75-94): a call trace with return
data yields the first retdata element parsed as a contract address (panic if
retdata is empty or the parse fails); otherwise the revert reason is decoded
by the panic-data decoder into a recoverable failure (panic if the revert
reason is absent or undecodable). -/
def classify_outcome (try_extract : String → Option (List Felt))
    (tx_info : TransactionExecutionInfo) : DeployOutcome :=
  match tx_info.execute_call_info with
  | some call_info =>
    match call_info.execution.retdata.head? with
    | none => .panic "Failed to get contract_address from return_data"
    | some contract_address =>
      match ContractAddress.try_from contract_address with
      | none => .panic "Failed to cast contract address into the right struct"
      | some addr => .ok addr
  | none =>
    match tx_info.revert_error with
    | none => .panic "Unparseable tx info"
    | some revert_error =>
      match try_extract revert_error with
      | none => .panic "Unparseable error message"
      | some extracted_panic_data => .err (.Recoverable extracted_panic_data)

/-- `CheatnetState::deploy` (deploy.rs lines 29-95), step for step:
salt capture + increment (38-39), class lookup (43-45), no-constructor guard
(46-50), calldata encoding (52-58), nonce read (60-63), transaction build and
submission with `(true, true)` flags (64-73), outcome classification (75-94).
Returns the outcome together with the post-state; submission appends the
transaction to the `executed` log. -/
def CheatnetState.deploy (s₀ : CheatnetState) (class_hash : ClassHash)
    (calldata : List Felt) : DeployOutcome × CheatnetState :=
  let s := s₀.increment_deploy_salt_base
  match s.blockifier_state.get_compiled_contract_class class_hash with
  | none => (.err (.Unrecoverable ⟨CLASS_LOOKUP_ERROR⟩), s)
  | some contract_class =>
    if contract_class.constructor_selector = none ∧ calldata ≠ [] then
      (.err (.Recoverable [felt_from_short_string "No constructor in contract"]), s)
    else
      match s.blockifier_state.get_nonce_at ⟨TEST_ACCOUNT_CONTRACT_ADDRESS⟩ with
      | none => (.err (.Unrecoverable ⟨NONCE_LOOKUP_ERROR⟩), s)
      | some nonce =>
        let tx := deploy_invoke_tx s₀ class_hash calldata nonce
        let s := post_submit_state s₀ class_hash calldata nonce
        (match s.blockifier_state.execute_result tx with
         | .error e => .panic ("Unparseable transaction error: " ++ e)
         | .ok tx_info =>
           classify_outcome s.blockifier_state.try_extract_panic_data tx_info,
         s)

/-- A contract class that declares a constructor entry point. -/
def ctorClass : ContractClass := ⟨some ⟨0x111⟩⟩

/-- A contract class with no constructor entry point. -/
def noCtorClass : ContractClass := ⟨none⟩

/-- Concrete engine fixture: every class is `ctorClass`, every nonce is 7,
execution behaves as `exec` and the panic-data decoder recognizes exactly the
revert string "PANIC" (decoding it to `[10, 20]`). -/
def engineOf (exec : SubmittedTx → ExecuteResult) : BlockifierState :=
  { get_compiled_contract_class := fun _ => some ctorClass
    get_nonce_at := fun _ => some 7
    execute_result := exec
    try_extract_panic_data := fun r => if r = "PANIC" then some [10, 20] else none
    executed := [] }

/-- Harness state whose engine returns a call trace with retdata `[55, 0]`. -/
def stSuccess : CheatnetState := ⟨5, engineOf fun _ => .ok ⟨some ⟨⟨[55, 0]⟩⟩, none⟩⟩

/-- Harness state whose engine reverts with the decodable reason "PANIC". -/
def stRevert : CheatnetState := ⟨5, engineOf fun _ => .ok ⟨none, some "PANIC"⟩⟩

/-- Harness state whose engine rejects the transaction with an internal
error. -/
def stEngineError : CheatnetState := ⟨5, engineOf fun _ => .error "malformed tx"⟩

/-- Harness state whose engine produces a call trace with empty retdata. -/
def stEmptyRetdata : CheatnetState := ⟨5, engineOf fun _ => .ok ⟨some ⟨⟨[]⟩⟩, none⟩⟩

/-- Harness state whose engine returns a first retdata element that is not a
valid contract address (≥ 2^251). -/
def stBadAddress : CheatnetState :=
  ⟨5, engineOf fun _ => .ok ⟨some ⟨⟨[2 ^ 251]⟩⟩, none⟩⟩

/-- Harness state whose engine yields neither a call trace nor a revert
reason. -/
def stNoRevertInfo : CheatnetState := ⟨5, engineOf fun _ => .ok ⟨none, none⟩⟩

/-- Harness state whose engine reverts with a reason the panic-data decoder
cannot decode. -/
def stUndecodable : CheatnetState := ⟨5, engineOf fun _ => .ok ⟨none, some "garbage"⟩⟩

/-- Harness state in which no class hash is declared. -/
def stUnknownClass : CheatnetState :=
  ⟨5, { engineOf (fun _ => .error "unreachable") with
        get_compiled_contract_class := fun _ => none }⟩

/-- Harness state in which every class hash resolves to a constructorless
class. -/
def stNoConstructor : CheatnetState :=
  ⟨5, { engineOf (fun _ => .error "unreachable") with
        get_compiled_contract_class := fun _ => some noCtorClass }⟩

/-- Harness state in which the nonce lookup fails. -/
def stNoNonce : CheatnetState :=
  ⟨5, { engineOf (fun _ => .error "unreachable") with
        get_nonce_at := fun _ => none }⟩

/-- Claim C1: for every deployer address `D`, selector `S`, class hash `C`,
salt `K` and argument list `A` of length `N`, `create_execute_calldata`
returns exactly `[D, S, N+3, C, K, N, A[0], ..., A[N-1]]`; in particular
`(A=[100,200], C=123, D=111, S=222, K=333)` encodes to
`[111, 222, 5, 123, 333, 2, 100, 200]`. -/
theorem create_execute_calldata_layout (A : List Felt) (C : ClassHash)
    (D : ContractAddress) (S : EntryPointSelector) (K : ContractAddressSalt) :
    (create_execute_calldata A C D S K).elts =
      [D.val, S.val, A.length + 3, C.val, K.val, A.length] ++ A ∧
    (create_execute_calldata [100, 200] ⟨123⟩ ⟨111⟩ ⟨222⟩ ⟨333⟩).elts =
      [111, 222, 5, 123, 333, 2, 100, 200] :=
  ⟨rfl, rfl⟩

/-- Claim C8: with empty constructor arguments `create_execute_calldata`
emits exactly the six elements `[D, S, 3, C, K, 0]`; in particular
`(C=123, D=111, S=222, K=333)` encodes to `[111, 222, 3, 123, 333, 0]`. -/
theorem create_execute_calldata_empty_args (C : ClassHash) (D : ContractAddress)
    (S : EntryPointSelector) (K : ContractAddressSalt) :
    (create_execute_calldata [] C D S K).elts = [D.val, S.val, 3, C.val, K.val, 0] ∧
    (create_execute_calldata [] ⟨123⟩ ⟨111⟩ ⟨222⟩ ⟨333⟩).elts =
      [111, 222, 3, 123, 333, 0] :=
  ⟨rfl, rfl⟩

/-- Claim C9: `create_execute_calldata` is deterministic and side-effect
free — it is a pure function of `(arguments, class, deployer, selector,
salt)`, so two invocations on the same tuple yield identical calldata. -/
theorem create_execute_calldata_deterministic (A : List Felt) (C : ClassHash)
    (D : ContractAddress) (S : EntryPointSelector) (K : ContractAddressSalt) :
    create_execute_calldata A C D S K = create_execute_calldata A C D S K :=
  rfl

/-- Claim C10: for every argument slice whose length fits in `usize`, the
`usize → u128` conversion and the `+ 3` addition in `create_execute_calldata`
cannot fail, and the output has exactly `N + 6` elements. -/
theorem create_execute_calldata_total (A : List Felt) (C : ClassHash)
    (D : ContractAddress) (S : EntryPointSelector) (K : ContractAddressSalt)
    (h : A.length < 2 ^ USIZE_BITS) :
    create_execute_calldata_checked A C D S K = some (create_execute_calldata A C D S K) ∧
    (create_execute_calldata A C D S K).elts.length = A.length + 6 := by
  have h64 : A.length < 2 ^ 64 := by simpa [USIZE_BITS] using h
  have h128 : A.length < 2 ^ 128 :=
    lt_of_lt_of_le h64 (Nat.pow_le_pow_right (by norm_num) (by norm_num))
  have h3 : A.length + 3 < 2 ^ 128 := by
    have hle : (2 : Nat) ^ 64 + 3 ≤ 2 ^ 128 := by norm_num
    omega
  have e1 : u128_try_from A.length = some A.length := by
    unfold u128_try_from
    exact if_pos h128
  have e2 : u128_checked_add A.length 3 = some (A.length + 3) := by
    unfold u128_checked_add
    exact if_pos h3
  constructor
  · simp only [create_execute_calldata_checked, e1, e2]
    rfl
  · simp [create_execute_calldata]

/-- Witness for C10 at `A = [100, 200]`. -/
theorem create_execute_calldata_total_witness :
    ([100, 200] : List Felt).length < 2 ^ USIZE_BITS ∧
    (create_execute_calldata_checked [100, 200] ⟨123⟩ ⟨111⟩ ⟨222⟩ ⟨333⟩ =
      some (create_execute_calldata [100, 200] ⟨123⟩ ⟨111⟩ ⟨222⟩ ⟨333⟩) ∧
     (create_execute_calldata [100, 200] ⟨123⟩ ⟨111⟩ ⟨222⟩ ⟨333⟩).elts.length =
       ([100, 200] : List Felt).length + 6) :=
  ⟨by decide,
   create_execute_calldata_total [100, 200] ⟨123⟩ ⟨111⟩ ⟨222⟩ ⟨333⟩ (by decide)⟩

/-- Helper: `deploy` when the class lookup fails — the unrecoverable error is
returned with the salt counter already advanced. -/
theorem deploy_class_none (s : CheatnetState) (ch : ClassHash) (args : List Felt)
    (h : s.blockifier_state.get_compiled_contract_class ch = none) :
    s.deploy ch args =
      (.err (.Unrecoverable ⟨CLASS_LOOKUP_ERROR⟩), s.increment_deploy_salt_base) := by
  simp [CheatnetState.deploy, CheatnetState.increment_deploy_salt_base, h]

/-- Helper: `deploy` when the class has no constructor but arguments were
supplied — the recoverable guard failure is returned with the salt counter
already advanced. -/
theorem deploy_guard (s : CheatnetState) (ch : ClassHash) (args : List Felt)
    (cls : ContractClass)
    (h₁ : s.blockifier_state.get_compiled_contract_class ch = some cls)
    (h₂ : cls.constructor_selector = none) (h₃ : args ≠ []) :
    s.deploy ch args =
      (.err (.Recoverable [felt_from_short_string "No constructor in contract"]),
       s.increment_deploy_salt_base) := by
  simp [CheatnetState.deploy, CheatnetState.increment_deploy_salt_base, h₁, h₂, h₃]

/-- Helper: `deploy` when the nonce lookup fails. -/
theorem deploy_nonce_none (s : CheatnetState) (ch : ClassHash) (args : List Felt)
    (cls : ContractClass)
    (h₁ : s.blockifier_state.get_compiled_contract_class ch = some cls)
    (h₂ : ¬(cls.constructor_selector = none ∧ args ≠ []))
    (h₃ : s.blockifier_state.get_nonce_at ⟨TEST_ACCOUNT_CONTRACT_ADDRESS⟩ = none) :
    s.deploy ch args =
      (.err (.Unrecoverable ⟨NONCE_LOOKUP_ERROR⟩), s.increment_deploy_salt_base) := by
  simp [CheatnetState.deploy, CheatnetState.increment_deploy_salt_base, h₁, h₂, h₃]

/-- Helper: `deploy` once the three lookups pass — the transaction is
submitted and the result is the engine outcome classified. -/
theorem deploy_submits (s : CheatnetState) (ch : ClassHash) (args : List Felt)
    (cls : ContractClass) (nonce : Felt)
    (h₁ : s.blockifier_state.get_compiled_contract_class ch = some cls)
    (h₂ : ¬(cls.constructor_selector = none ∧ args ≠ []))
    (h₃ : s.blockifier_state.get_nonce_at ⟨TEST_ACCOUNT_CONTRACT_ADDRESS⟩ = some nonce) :
    s.deploy ch args =
      ((match s.blockifier_state.execute_result (deploy_invoke_tx s ch args nonce) with
        | .error e => .panic ("Unparseable transaction error: " ++ e)
        | .ok tx_info =>
          classify_outcome s.blockifier_state.try_extract_panic_data tx_info),
       post_submit_state s ch args nonce) := by
  simp [CheatnetState.deploy, CheatnetState.increment_deploy_salt_base, h₁, h₂, h₃,
    post_submit_state]

/-- Claim C2: if the looked-up class declares no constructor and the
constructor-argument list is non-empty, `deploy` returns the recoverable
failure `[short_string "No constructor in contract"]` and the ledger engine's
execute is never invoked (the `executed` log is unchanged). -/
theorem deploy_no_constructor_guard (s : CheatnetState) (ch : ClassHash)
    (args : List Felt) (cls : ContractClass)
    (h₁ : s.blockifier_state.get_compiled_contract_class ch = some cls)
    (h₂ : cls.constructor_selector = none) (h₃ : args ≠ []) :
    (s.deploy ch args).1 =
      .err (.Recoverable [felt_from_short_string "No constructor in contract"]) ∧
    (s.deploy ch args).2.blockifier_state.executed = s.blockifier_state.executed := by
  rw [deploy_guard s ch args cls h₁ h₂ h₃]
  exact ⟨rfl, rfl⟩

/-- Witness for C2 at a concrete constructorless class with one argument. -/
theorem deploy_no_constructor_guard_witness :
    stNoConstructor.blockifier_state.get_compiled_contract_class ⟨123⟩ = some noCtorClass ∧
    noCtorClass.constructor_selector = none ∧
    ([1] : List Felt) ≠ [] ∧
    ((stNoConstructor.deploy ⟨123⟩ [1]).1 =
      .err (.Recoverable [felt_from_short_string "No constructor in contract"]) ∧
     (stNoConstructor.deploy ⟨123⟩ [1]).2.blockifier_state.executed =
       stNoConstructor.blockifier_state.executed) :=
  ⟨rfl, rfl, by decide,
   deploy_no_constructor_guard stNoConstructor ⟨123⟩ [1] noCtorClass rfl rfl (by decide)⟩

/-- Claim C3 counterexample: a deploy call that reaches submission submits its
transaction with the fee-charging and validation flags set to `true` (deploy.rs
line 72 passes the literal pair `(true, true)`), so the log contains no
transaction with both flags off — refuting the claim that both flags are
disabled. -/
theorem deploy_flags_counterexample :
    (stSuccess.deploy ⟨123⟩ []).2.blockifier_state.executed.length = 1 ∧
    ((stSuccess.deploy ⟨123⟩ []).2.blockifier_state.executed.all
      fun t => !t.charge_fee && !t.validate) = false := by
  decide

/-- Claim C3 (amended): every deploy call either never contacts the engine or
submits exactly one transaction, and that transaction carries the fee-charging
and validation flags both set to `true` (enabled), not disabled. -/
theorem deploy_submits_with_flags_enabled (s : CheatnetState) (ch : ClassHash)
    (args : List Felt) :
    (s.deploy ch args).2.blockifier_state.executed = s.blockifier_state.executed ∨
    ∃ tx, (s.deploy ch args).2.blockifier_state.executed =
        s.blockifier_state.executed ++ [tx] ∧
      tx.charge_fee = true ∧ tx.validate = true := by
  cases hc : s.blockifier_state.get_compiled_contract_class ch with
  | none =>
    left
    rw [deploy_class_none s ch args hc]
    exact rfl
  | some cls =>
    by_cases hg : cls.constructor_selector = none ∧ args ≠ []
    · left
      rw [deploy_guard s ch args cls hc hg.1 hg.2]
      exact rfl
    · cases hn : s.blockifier_state.get_nonce_at ⟨TEST_ACCOUNT_CONTRACT_ADDRESS⟩ with
      | none =>
        left
        rw [deploy_nonce_none s ch args cls hc hg hn]
        exact rfl
      | some nonce =>
        right
        refine ⟨deploy_invoke_tx s ch args nonce, ?_, rfl, rfl⟩
        rw [deploy_submits s ch args cls nonce hc hg hn]
        rfl

/-- Claim C4 counterexample: an unknown class identifier does not abort the
process — `deploy` returns it as an (unrecoverable) error value. -/
theorem deploy_unknown_class_counterexample :
    (stUnknownClass.deploy ⟨123⟩ []).1 = .err (.Unrecoverable ⟨CLASS_LOOKUP_ERROR⟩) ∧
    ((stUnknownClass.deploy ⟨123⟩ []).1).isPanic = false := by
  decide

/-- Claim C4 (amended): of the five fatal conditions, unknown class identifier
and nonce lookup failure are returned from `deploy` as unrecoverable error
values (a channel distinct from recoverable failures, but still a returned
result), while a malformed transaction rejected by the engine, missing return
data on a nominally successful call, a missing revert reason, and an
undecodable revert payload all panic (abort the process). -/
theorem deploy_fatal_error_channels (s : CheatnetState) (ch : ClassHash)
    (args : List Felt) :
    (s.blockifier_state.get_compiled_contract_class ch = none →
      (s.deploy ch args).1 = .err (.Unrecoverable ⟨CLASS_LOOKUP_ERROR⟩) ∧
      ((s.deploy ch args).1).isPanic = false) ∧
    (∀ cls, s.blockifier_state.get_compiled_contract_class ch = some cls →
      ¬(cls.constructor_selector = none ∧ args ≠ []) →
      s.blockifier_state.get_nonce_at ⟨TEST_ACCOUNT_CONTRACT_ADDRESS⟩ = none →
      (s.deploy ch args).1 = .err (.Unrecoverable ⟨NONCE_LOOKUP_ERROR⟩) ∧
      ((s.deploy ch args).1).isPanic = false) ∧
    (∀ cls nonce e, s.blockifier_state.get_compiled_contract_class ch = some cls →
      ¬(cls.constructor_selector = none ∧ args ≠ []) →
      s.blockifier_state.get_nonce_at ⟨TEST_ACCOUNT_CONTRACT_ADDRESS⟩ = some nonce →
      s.blockifier_state.execute_result (deploy_invoke_tx s ch args nonce) = .error e →
      ((s.deploy ch args).1).isPanic = true) ∧
    (∀ cls nonce tx_info ci,
      s.blockifier_state.get_compiled_contract_class ch = some cls →
      ¬(cls.constructor_selector = none ∧ args ≠ []) →
      s.blockifier_state.get_nonce_at ⟨TEST_ACCOUNT_CONTRACT_ADDRESS⟩ = some nonce →
      s.blockifier_state.execute_result (deploy_invoke_tx s ch args nonce) = .ok tx_info →
      tx_info.execute_call_info = some ci → ci.execution.retdata = [] →
      ((s.deploy ch args).1).isPanic = true) ∧
    (∀ cls nonce tx_info,
      s.blockifier_state.get_compiled_contract_class ch = some cls →
      ¬(cls.constructor_selector = none ∧ args ≠ []) →
      s.blockifier_state.get_nonce_at ⟨TEST_ACCOUNT_CONTRACT_ADDRESS⟩ = some nonce →
      s.blockifier_state.execute_result (deploy_invoke_tx s ch args nonce) = .ok tx_info →
      tx_info.execute_call_info = none → tx_info.revert_error = none →
      ((s.deploy ch args).1).isPanic = true) ∧
    (∀ cls nonce tx_info r,
      s.blockifier_state.get_compiled_contract_class ch = some cls →
      ¬(cls.constructor_selector = none ∧ args ≠ []) →
      s.blockifier_state.get_nonce_at ⟨TEST_ACCOUNT_CONTRACT_ADDRESS⟩ = some nonce →
      s.blockifier_state.execute_result (deploy_invoke_tx s ch args nonce) = .ok tx_info →
      tx_info.execute_call_info = none → tx_info.revert_error = some r →
      s.blockifier_state.try_extract_panic_data r = none →
      ((s.deploy ch args).1).isPanic = true) := by
  refine ⟨?_, ?_, ?_, ?_, ?_, ?_⟩
  · intro h
    rw [deploy_class_none s ch args h]
    exact ⟨rfl, rfl⟩
  · intro cls h₁ h₂ h₃
    rw [deploy_nonce_none s ch args cls h₁ h₂ h₃]
    exact ⟨rfl, rfl⟩
  · intro cls nonce e h₁ h₂ h₃ h₄
    rw [deploy_submits s ch args cls nonce h₁ h₂ h₃]
    simp [h₄, DeployOutcome.isPanic]
  · intro cls nonce tx_info ci h₁ h₂ h₃ h₄ h₅ h₆
    rw [deploy_submits s ch args cls nonce h₁ h₂ h₃]
    simp [h₄, h₅, h₆, classify_outcome, DeployOutcome.isPanic]
  · intro cls nonce tx_info h₁ h₂ h₃ h₄ h₅ h₆
    rw [deploy_submits s ch args cls nonce h₁ h₂ h₃]
    simp [h₄, h₅, h₆, classify_outcome, DeployOutcome.isPanic]
  · intro cls nonce tx_info r h₁ h₂ h₃ h₄ h₅ h₆ h₇
    rw [deploy_submits s ch args cls nonce h₁ h₂ h₃]
    simp [h₄, h₅, h₆, h₇, classify_outcome, DeployOutcome.isPanic]

/-- Witness for C4 (amended): each of the six conjuncts applied at a concrete
harness state exhibiting its scenario. -/
theorem deploy_fatal_error_channels_witness :
    ((stUnknownClass.deploy ⟨123⟩ []).1 = .err (.Unrecoverable ⟨CLASS_LOOKUP_ERROR⟩) ∧
     ((stUnknownClass.deploy ⟨123⟩ []).1).isPanic = false) ∧
    ((stNoNonce.deploy ⟨123⟩ []).1 = .err (.Unrecoverable ⟨NONCE_LOOKUP_ERROR⟩) ∧
     ((stNoNonce.deploy ⟨123⟩ []).1).isPanic = false) ∧
    ((stEngineError.deploy ⟨123⟩ []).1).isPanic = true ∧
    ((stEmptyRetdata.deploy ⟨123⟩ []).1).isPanic = true ∧
    ((stNoRevertInfo.deploy ⟨123⟩ []).1).isPanic = true ∧
    ((stUndecodable.deploy ⟨123⟩ []).1).isPanic = true :=
  ⟨(deploy_fatal_error_channels stUnknownClass ⟨123⟩ []).1 rfl,
   (deploy_fatal_error_channels stNoNonce ⟨123⟩ []).2.1 ctorClass rfl (by decide) rfl,
   (deploy_fatal_error_channels stEngineError ⟨123⟩ []).2.2.1 ctorClass 7 "malformed tx"
     rfl (by decide) rfl rfl,
   (deploy_fatal_error_channels stEmptyRetdata ⟨123⟩ []).2.2.2.1 ctorClass 7
     ⟨some ⟨⟨[]⟩⟩, none⟩ ⟨⟨[]⟩⟩ rfl (by decide) rfl rfl rfl rfl,
   (deploy_fatal_error_channels stNoRevertInfo ⟨123⟩ []).2.2.2.2.1 ctorClass 7
     ⟨none, none⟩ rfl (by decide) rfl rfl rfl rfl,
   (deploy_fatal_error_channels stUndecodable ⟨123⟩ []).2.2.2.2.2 ctorClass 7
     ⟨none, some "garbage"⟩ "garbage" rfl (by decide) rfl rfl rfl rfl (by decide)⟩

/-- Claim C5 counterexample: at a concrete state with salt counter 5 and an
undeclared class, the failing deploy call leaves the counter at 6, not 5 —
refuting the claim that such a failure leaves the salt counter unchanged. -/
theorem deploy_salt_not_preserved_counterexample :
    (stUnknownClass.deploy ⟨123⟩ []).1 = .err (.Unrecoverable ⟨CLASS_LOOKUP_ERROR⟩) ∧
    stUnknownClass.deploy_salt_base = 5 ∧
    (stUnknownClass.deploy ⟨123⟩ []).2.deploy_salt_base = 6 ∧
    (stUnknownClass.deploy ⟨123⟩ []).2.deploy_salt_base ≠ stUnknownClass.deploy_salt_base := by
  decide

/-- Claim C5 (amended): the salt is allocated and the counter advanced
*before* the class lookup and the no-constructor check, so a deploy call that
fails for either reason still advances the salt counter by exactly one. -/
theorem deploy_salt_advances_on_early_failure (s : CheatnetState) (ch : ClassHash)
    (args : List Felt)
    (h : s.blockifier_state.get_compiled_contract_class ch = none ∨
      ∃ cls, s.blockifier_state.get_compiled_contract_class ch = some cls ∧
        cls.constructor_selector = none ∧ args ≠ []) :
    ((s.deploy ch args).1 = .err (.Unrecoverable ⟨CLASS_LOOKUP_ERROR⟩) ∨
     (s.deploy ch args).1 =
       .err (.Recoverable [felt_from_short_string "No constructor in contract"])) ∧
    (s.deploy ch args).2.deploy_salt_base = s.deploy_salt_base + 1 := by
  rcases h with h | ⟨cls, h₁, h₂, h₃⟩
  · rw [deploy_class_none s ch args h]
    exact ⟨Or.inl rfl, rfl⟩
  · rw [deploy_guard s ch args cls h₁ h₂ h₃]
    exact ⟨Or.inr rfl, rfl⟩

/-- Witness for C5 (amended) at the undeclared-class state. -/
theorem deploy_salt_advances_on_early_failure_witness :
    stUnknownClass.blockifier_state.get_compiled_contract_class ⟨123⟩ = none ∧
    (((stUnknownClass.deploy ⟨123⟩ []).1 = .err (.Unrecoverable ⟨CLASS_LOOKUP_ERROR⟩) ∨
      (stUnknownClass.deploy ⟨123⟩ []).1 =
        .err (.Recoverable [felt_from_short_string "No constructor in contract"])) ∧
     (stUnknownClass.deploy ⟨123⟩ []).2.deploy_salt_base =
       stUnknownClass.deploy_salt_base + 1) :=
  ⟨rfl, deploy_salt_advances_on_early_failure stUnknownClass ⟨123⟩ [] (Or.inl rfl)⟩

/-- Helper: every `deploy` call — whatever its outcome — leaves the salt
counter at its initial value plus one. -/
theorem deploy_salt_base_succ (s : CheatnetState) (ch : ClassHash) (args : List Felt) :
    (s.deploy ch args).2.deploy_salt_base = s.deploy_salt_base + 1 := by
  cases hc : s.blockifier_state.get_compiled_contract_class ch with
  | none =>
    rw [deploy_class_none s ch args hc]
    exact rfl
  | some cls =>
    by_cases hg : cls.constructor_selector = none ∧ args ≠ []
    · rw [deploy_guard s ch args cls hc hg.1 hg.2]
      exact rfl
    · cases hn : s.blockifier_state.get_nonce_at ⟨TEST_ACCOUNT_CONTRACT_ADDRESS⟩ with
      | none =>
        rw [deploy_nonce_none s ch args cls hc hg hn]
        exact rfl
      | some nonce =>
        rw [deploy_submits s ch args cls nonce hc hg hn]
        exact rfl

/-- Claim C6: every deploy call advances the salt counter exactly once
(success or failure alike); any transaction it submits carries, at calldata
position 4, the salt captured *before* the advance; two successive deploy
calls therefore advance the counter twice and use strictly different
(increasing) salts. -/
theorem deploy_salt_allocation (s : CheatnetState) (ch ch' : ClassHash)
    (args args' : List Felt) :
    (s.deploy ch args).2.deploy_salt_base = s.deploy_salt_base + 1 ∧
    (∀ tx, (s.deploy ch args).2.blockifier_state.executed =
        s.blockifier_state.executed ++ [tx] →
      tx.calldata.get? 4 = some s.deploy_salt_base) ∧
    ((s.deploy ch args).2.deploy ch' args').2.deploy_salt_base = s.deploy_salt_base + 2 ∧
    (s.deploy ch args).2.get_salt ≠ s.get_salt := by
  refine ⟨deploy_salt_base_succ s ch args, ?_, ?_, ?_⟩
  · intro tx htx
    cases hc : s.blockifier_state.get_compiled_contract_class ch with
    | none =>
      rw [deploy_class_none s ch args hc] at htx
      exact absurd (congrArg List.length htx)
        (by simp [CheatnetState.increment_deploy_salt_base])
    | some cls =>
      by_cases hg : cls.constructor_selector = none ∧ args ≠ []
      · rw [deploy_guard s ch args cls hc hg.1 hg.2] at htx
        exact absurd (congrArg List.length htx)
          (by simp [CheatnetState.increment_deploy_salt_base])
      · cases hn : s.blockifier_state.get_nonce_at ⟨TEST_ACCOUNT_CONTRACT_ADDRESS⟩ with
        | none =>
          rw [deploy_nonce_none s ch args cls hc hg hn] at htx
          exact absurd (congrArg List.length htx)
            (by simp [CheatnetState.increment_deploy_salt_base])
        | some nonce =>
          rw [deploy_submits s ch args cls nonce hc hg hn] at htx
          simp only [post_submit_state, CheatnetState.increment_deploy_salt_base] at htx
          have hx : deploy_invoke_tx s ch args nonce = tx := by
            simpa using htx
          rw [← hx]
          exact rfl
  · rw [deploy_salt_base_succ (s.deploy ch args).2 ch' args',
      deploy_salt_base_succ s ch args]
  · intro hEq
    have h1 := deploy_salt_base_succ s ch args
    have h2 : (s.deploy ch args).2.deploy_salt_base = s.deploy_salt_base :=
      congrArg ContractAddressSalt.val hEq
    rw [h1] at h2
    omega

/-- Witness for C6 at the concrete success state (salt counter 5): the
counter moves to 6, the submitted transaction carries salt 5 at calldata
position 4, a second call moves the counter to 7, and the two calls read
different salts. -/
theorem deploy_salt_allocation_witness :
    (stSuccess.deploy ⟨123⟩ []).2.deploy_salt_base = 6 ∧
    (deploy_invoke_tx stSuccess ⟨123⟩ [] 7).calldata.get? 4 = some 5 ∧
    ((stSuccess.deploy ⟨123⟩ []).2.deploy ⟨124⟩ []).2.deploy_salt_base = 7 ∧
    (stSuccess.deploy ⟨123⟩ []).2.get_salt ≠ stSuccess.get_salt := by
  have h := deploy_salt_allocation stSuccess ⟨123⟩ ⟨124⟩ [] []
  exact ⟨h.1, h.2.1 (deploy_invoke_tx stSuccess ⟨123⟩ [] 7) (by decide), h.2.2.1, h.2.2.2⟩

/-- Claim C7: once the transaction has been executed, `deploy` classifies the
outcome exactly as the source does — a call trace whose first retdata element
parses as a contract address yields success; a parse failure or empty retdata
panics; with no call trace, a decodable revert reason becomes a recoverable
failure and a missing or undecodable one panics; and there is no other
outcome. -/
theorem deploy_outcome_classified (s : CheatnetState) (ch : ClassHash)
    (args : List Felt) (cls : ContractClass) (nonce : Felt)
    (tx_info : TransactionExecutionInfo)
    (h₁ : s.blockifier_state.get_compiled_contract_class ch = some cls)
    (h₂ : ¬(cls.constructor_selector = none ∧ args ≠ []))
    (h₃ : s.blockifier_state.get_nonce_at ⟨TEST_ACCOUNT_CONTRACT_ADDRESS⟩ = some nonce)
    (h₄ : s.blockifier_state.execute_result (deploy_invoke_tx s ch args nonce) =
      .ok tx_info) :
    (∀ ci f rest addr, tx_info.execute_call_info = some ci →
      ci.execution.retdata = f :: rest → ContractAddress.try_from f = some addr →
      (s.deploy ch args).1 = .ok addr) ∧
    (∀ ci f rest, tx_info.execute_call_info = some ci →
      ci.execution.retdata = f :: rest → ContractAddress.try_from f = none →
      (s.deploy ch args).1 =
        .panic "Failed to cast contract address into the right struct") ∧
    (∀ ci, tx_info.execute_call_info = some ci → ci.execution.retdata = [] →
      (s.deploy ch args).1 = .panic "Failed to get contract_address from return_data") ∧
    (∀ r pd, tx_info.execute_call_info = none → tx_info.revert_error = some r →
      s.blockifier_state.try_extract_panic_data r = some pd →
      (s.deploy ch args).1 = .err (.Recoverable pd)) ∧
    (tx_info.execute_call_info = none → tx_info.revert_error = none →
      (s.deploy ch args).1 = .panic "Unparseable tx info") ∧
    (∀ r, tx_info.execute_call_info = none → tx_info.revert_error = some r →
      s.blockifier_state.try_extract_panic_data r = none →
      (s.deploy ch args).1 = .panic "Unparseable error message") ∧
    ((∃ a, (s.deploy ch args).1 = .ok a) ∨
     (∃ pd, (s.deploy ch args).1 = .err (.Recoverable pd)) ∨
     ((s.deploy ch args).1).isPanic = true) := by
  have hD : (s.deploy ch args).1 =
      classify_outcome s.blockifier_state.try_extract_panic_data tx_info := by
    rw [deploy_submits s ch args cls nonce h₁ h₂ h₃]
    simp [h₄]
  refine ⟨?_, ?_, ?_, ?_, ?_, ?_, ?_⟩
  · intro ci f rest addr hci hret htf
    rw [hD]
    simp [classify_outcome, hci, hret, htf]
  · intro ci f rest hci hret htf
    rw [hD]
    simp [classify_outcome, hci, hret, htf]
  · intro ci hci hret
    rw [hD]
    simp [classify_outcome, hci, hret]
  · intro r pd hci hre hpd
    rw [hD]
    simp [classify_outcome, hci, hre, hpd]
  · intro hci hre
    rw [hD]
    simp [classify_outcome, hci, hre]
  · intro r hci hre hpd
    rw [hD]
    simp [classify_outcome, hci, hre, hpd]
  · rw [hD]
    rcases hci : tx_info.execute_call_info with _ | ci
    · rcases hre : tx_info.revert_error with _ | r
      · right; right
        simp [classify_outcome, hci, hre, DeployOutcome.isPanic]
      · rcases hpd : s.blockifier_state.try_extract_panic_data r with _ | pd
        · right; right
          simp [classify_outcome, hci, hre, hpd, DeployOutcome.isPanic]
        · right; left
          exact ⟨pd, by simp [classify_outcome, hci, hre, hpd]⟩
    · rcases hret : ci.execution.retdata with _ | ⟨f, rest⟩
      · right; right
        simp [classify_outcome, hci, hret, DeployOutcome.isPanic]
      · rcases htf : ContractAddress.try_from f with _ | addr
        · right; right
          simp [classify_outcome, hci, hret, htf, DeployOutcome.isPanic]
        · left
          exact ⟨addr, by simp [classify_outcome, hci, hret, htf]⟩

/-- Witness for C7: the success conjunct at the concrete success state and
the recoverable-revert conjunct at the concrete revert state. -/
theorem deploy_outcome_classified_witness :
    (stSuccess.deploy ⟨123⟩ []).1 = .ok ⟨55⟩ ∧
    (stRevert.deploy ⟨123⟩ []).1 = .err (.Recoverable [10, 20]) :=
  ⟨(deploy_outcome_classified stSuccess ⟨123⟩ [] ctorClass 7 ⟨some ⟨⟨[55, 0]⟩⟩, none⟩
      rfl (by decide) rfl rfl).1 ⟨⟨[55, 0]⟩⟩ 55 [0] ⟨55⟩ rfl rfl (by decide),
   (deploy_outcome_classified stRevert ⟨123⟩ [] ctorClass 7 ⟨none, some "PANIC"⟩
      rfl (by decide) rfl rfl).2.2.2.1 "PANIC" [10, 20] rfl rfl (by decide)⟩
